/-
  Verification of the playlist-generator core pipeline.

  Shallow embedding of the JavaScript source:
  * moodService (src/unnamed/part_007): buildFeatureVector / MOOD_LABELS / computeMood
  * inMemoryStore (src/backend/src/store/inMemoryStore.js): averageMetric / getAggregatedMetrics
  * wearableAdapters (src/backend/src/services/wearableAdapters/index.js)
  * whoopService (src/backend/src/services/whoopService.js)
  * spotifyService (src/unnamed/part_008): fetchLiveTracks / getFallbackTracks
  * aiPlaylistRoutes (src/unnamed/part_002): track-selection step of POST /

  JavaScript doubles are modelled as exact rationals (ℚ); the values the
  code manipulates (scores, thresholds, two-decimal roundings) are all
  decimal fractions, where this abstraction is exact at the comparisons
  the code performs.  `Number(x).toFixed(2)` is modelled as rounding
  x·100 to the nearest integer and dividing by 100.
-/
import Mathlib

namespace PlaylistGen

/-! ## Numeric model: `Number(x.toFixed(2))` -/

/-- `Number(x.toFixed(2))`: round to two decimal places. -/
def round2 (x : ℚ) : ℚ := (round (x * 100) : ℤ) / 100

/-! ## Mood classifier (src/unnamed/part_007) -/

/-- `clamp(value, min = 0, max = 1)`: null/NaN propagates as `none`,
otherwise `Math.min(Math.max(value, min), max)`. -/
def clamp (value : Option ℚ) (lo : ℚ := 0) (hi : ℚ := 1) : Option ℚ :=
  match value with
  | none => none
  | some v => some (min (max v lo) hi)

/-- `normalize(value, min, max)`: null/NaN yields null, otherwise
`clamp(Number(((value-min)/(max-min)).toFixed(2)))`. -/
def normalizeScale (value : Option ℚ) (lo hi : ℚ) : Option ℚ :=
  match value with
  | none => none
  | some v => clamp (some (round2 ((v - lo) / (hi - lo))))

/-- Canonical metric record: the five nullable metrics. -/
structure Metrics where
  hrv : Option ℚ
  sleepQuality : Option ℚ
  strain : Option ℚ
  readiness : Option ℚ
  restingHeartRate : Option ℚ
deriving Repr, DecidableEq

/-- The five feature scores produced by `buildFeatureVector`. -/
structure Features where
  readinessScore : ℚ
  recoveryScore : ℚ
  sleepScore : ℚ
  strainScore : ℚ
  restingHrScore : ℚ
deriving Repr, DecidableEq

/-- `buildFeatureVector(metrics)`: per-metric linear scaling with
null-default substitution (`?? 0.5` etc.).  The restingHeartRate source is
`metrics.restingHeartRate ? 80 - metrics.restingHeartRate : null`, i.e. a
falsy (null or 0) resting heart rate yields the null branch. -/
def buildFeatureVector (m : Metrics) : Features :=
  { readinessScore := (normalizeScale m.readiness 0 100).getD (1/2)
    recoveryScore := (normalizeScale m.hrv 20 150).getD (1/2)
    sleepScore := (normalizeScale m.sleepQuality 0 100).getD (1/2)
    strainScore := (normalizeScale m.strain 0 21).getD (3/10)
    restingHrScore :=
      (normalizeScale
        (match m.restingHeartRate with
         | none => none
         | some rhr => if rhr = 0 then none else some (80 - rhr))
        (-10) 50).getD (1/2) }

/-- The four mood labels. -/
inductive MoodLabel where
  | flow | amped | recovery | reset
deriving Repr, DecidableEq

/-- One entry of the `MOOD_LABELS` rule table. -/
structure MoodConfig where
  label : MoodLabel
  condition : Features → Bool
  targetEnergy : ℚ
  targetValence : ℚ
  targetTempo : ℚ

/-- The ordered `MOOD_LABELS` rule list: flow, amped, recovery, reset;
the last condition is the unconditional catch-all. -/
def MOOD_LABELS : List MoodConfig :=
  [ { label := .flow
      condition := fun f => decide (f.readinessScore > 7/10) && decide (f.sleepScore > 7/10)
      targetEnergy := 65/100, targetValence := 55/100, targetTempo := 110 }
  , { label := .amped
      condition := fun f => decide (f.strainScore > 6/10) && decide (f.readinessScore > 55/100)
      targetEnergy := 85/100, targetValence := 6/10, targetTempo := 130 }
  , { label := .recovery
      condition := fun f => decide (f.readinessScore < 45/100) || decide (f.sleepScore < 45/100)
      targetEnergy := 35/100, targetValence := 1/2, targetTempo := 80 }
  , { label := .reset
      condition := fun _ => true
      targetEnergy := 1/2, targetValence := 55/100, targetTempo := 100 } ]

/-- Result shape of `computeMood`. -/
structure MoodSnapshot where
  label : MoodLabel
  score : ℚ
  featureVector : Features
deriving Repr, DecidableEq

/-- `computeMood(features)`: two-decimal weighted score, then
`MOOD_LABELS.find(config => config.condition(features))`.  The `.find`
always succeeds because the last rule is the catch-all; the `getD`
default branch is unreachable. -/
def computeMood (f : Features) : MoodSnapshot :=
  let weightedScore := round2
    (f.readinessScore * (25/100) + f.sleepScore * (2/10) +
     f.recoveryScore * (2/10) + f.restingHrScore * (15/100) -
     f.strainScore * (15/100))
  let selected := (MOOD_LABELS.find? fun config => config.condition f).map (·.label)
  { label := selected.getD .reset
    score := weightedScore
    featureVector := f }

/-- `inferMood(aggregatedMetrics)`: 400-error when no data has been
ingested, else classify the feature vector of the aggregated metrics. -/
def inferMood (aggregatedMetrics : Option Metrics) : Except Unit MoodSnapshot :=
  match aggregatedMetrics with
  | none => .error ()
  | some m => .ok (computeMood (buildFeatureVector m))

/-! ## Aggregation store (src/backend/src/store/inMemoryStore.js) -/

/-- One stored canonical sample: the provider recorded inside the sample
and its metrics (the fields `averageMetric` / `getAggregatedMetrics` read). -/
structure Sample where
  provider : String
  metrics : Metrics
deriving Repr, DecidableEq

/-- `averageMetric(entries, key)`: collect the non-null numeric values of
`key` across the entries; `null` when there are none, otherwise
`Number((sum / values.length).toFixed(2))`. -/
def averageMetric (entries : List Sample) (key : Metrics → Option ℚ) : Option ℚ :=
  let values := entries.filterMap fun entry => key entry.metrics
  if values.length = 0 then none
  else some (round2 (values.sum / values.length))

/-- Result shape of `getAggregatedMetrics`. -/
structure Aggregated where
  sampleCount : ℕ
  providers : List String
  lastUpdated : String
  metrics : Metrics
deriving Repr, DecidableEq

/-- `getAggregatedMetrics()` over the current `Object.values(wearableData)`
entries: `null` when the store is empty, otherwise the per-key averages. -/
def getAggregatedMetrics (entries : List Sample) (nowIso : String) : Option Aggregated :=
  if entries.length = 0 then none
  else some
    { sampleCount := entries.length
      providers := entries.map (·.provider)
      lastUpdated := nowIso
      metrics :=
        { hrv := averageMetric entries Metrics.hrv
          sleepQuality := averageMetric entries Metrics.sleepQuality
          strain := averageMetric entries Metrics.strain
          readiness := averageMetric entries Metrics.readiness
          restingHeartRate := averageMetric entries Metrics.restingHeartRate } }

/-! ## JavaScript value model for the wearable adapters -/

/-- A JavaScript value as the adapters observe it.  A string carries the
result of `Number(s)` as `numValue` (`none` when the parse is NaN) and an
emptiness flag for truthiness; `nan` is the NaN double; objects are
association lists of fields. -/
inductive JsValue where
  | vnull
  | vundefined
  | vnum (q : ℚ)
  | nan
  | vstr (empty : Bool) (numValue : Option ℚ)
  | vbool (b : Bool)
  | vobj (fields : List (String × JsValue))

/-- Field access `v.key`: `undefined` unless `v` is an object with the key. -/
def JsValue.get (v : JsValue) (key : String) : JsValue :=
  match v with
  | .vobj fields =>
      match fields.lookup key with
      | some w => w
      | none => .vundefined
  | _ => .vundefined

/-- JavaScript truthiness: null, undefined, 0, NaN, false and the empty
string are falsy; objects are always truthy. -/
def JsValue.truthy : JsValue → Bool
  | .vnull => false
  | .vundefined => false
  | .vnum q => decide (q ≠ 0)
  | .nan => false
  | .vstr empty _ => !empty
  | .vbool b => b
  | .vobj _ => true

/-- `a || b`: `a` when truthy, else `b`. -/
def JsValue.orElse (a b : JsValue) : JsValue :=
  if a.truthy then a else b

/-- `a ?? b`: `a` unless it is null or undefined. -/
def JsValue.coalesce (a b : JsValue) : JsValue :=
  match a with
  | .vnull => b
  | .vundefined => b
  | v => v

/-- Optional chaining `v?.key`: undefined when `v` is null/undefined. -/
def JsValue.getOpt (v : JsValue) (key : String) : JsValue :=
  match v with
  | .vnull => .vundefined
  | .vundefined => .vundefined
  | v => v.get key

/-- `Number(x)` coercion: `none` stands for NaN.  null → 0, undefined → NaN,
booleans → 0/1, strings → their parse result, objects → NaN (the adapters
only coerce leaf values, where `valueOf` is the identity path). -/
def jsToNumber : JsValue → Option ℚ
  | .vnull => some 0
  | .vundefined => none
  | .vnum q => some q
  | .nan => none
  | .vstr _ numValue => numValue
  | .vbool b => some (if b then 1 else 0)
  | .vobj _ => none

/-- `Number(x) || null`: the adapters' coercion-to-number-or-null; NaN and
0 both collapse to null. -/
def numOrNull (v : JsValue) : Option ℚ :=
  match jsToNumber v with
  | none => none
  | some q => if q = 0 then none else some q

/-! ## Wearable adapters (src/backend/src/services/wearableAdapters) -/

/-- `CanonicalSample` as produced by an adapter (timestamp and raw payload
kept abstract as the JsValue they carry). -/
structure CanonicalSample where
  provider : String
  metrics : Metrics
  raw : JsValue

/-- The source value feeding the whoop `hrv` metric:
`recovery.hrv ?? recovery.heart_rate_variability` over `payload.recovery || {}`. -/
def whoopHrvSource (payload : JsValue) : JsValue :=
  let recovery := (payload.get "recovery").orElse (.vobj [])
  (recovery.get "hrv").coalesce (recovery.get "heart_rate_variability")

/-- Source of whoop `sleepQuality`: `sleep.score ?? sleep.quality_score`. -/
def whoopSleepSource (payload : JsValue) : JsValue :=
  let sleep := (payload.get "sleep").orElse (.vobj [])
  (sleep.get "score").coalesce (sleep.get "quality_score")

/-- Source of whoop `strain`: `payload.strain ?? payload.training_load?.strain`. -/
def whoopStrainSource (payload : JsValue) : JsValue :=
  (payload.get "strain").coalesce ((payload.get "training_load").getOpt "strain")

/-- Source of whoop `readiness`: `recovery.score ?? recovery.readiness_score`. -/
def whoopReadinessSource (payload : JsValue) : JsValue :=
  let recovery := (payload.get "recovery").orElse (.vobj [])
  (recovery.get "score").coalesce (recovery.get "readiness_score")

/-- Source of whoop `restingHeartRate`: `recovery.resting_heart_rate`. -/
def whoopRestingHrSource (payload : JsValue) : JsValue :=
  ((payload.get "recovery").orElse (.vobj [])).get "resting_heart_rate"

/-- The five whoop metrics over a non-null, defaulted payload: every
metric is `Number(source) || null`. -/
def whoopMetrics (p : JsValue) : Metrics :=
  { hrv := numOrNull (whoopHrvSource p)
    sleepQuality := numOrNull (whoopSleepSource p)
    strain := numOrNull (whoopStrainSource p)
    readiness := numOrNull (whoopReadinessSource p)
    restingHeartRate := numOrNull (whoopRestingHrSource p) }

/-- The `payload = {}` default parameter: it substitutes only an
`undefined` argument (a null argument passes through as null). -/
def jsDefault (payload : JsValue) : JsValue :=
  match payload with
  | .vundefined => .vobj []
  | p => p

/-- `normalizeWhoopPayload(payload = {})`.  The very first statement,
`payload.recovery`, raises a TypeError when the (defaulted) payload is
null; on every other value a member access yields the member or
undefined and the body is total, so the error case is exactly a null
payload. -/
def normalizeWhoopPayload (payload : JsValue) : Except Unit CanonicalSample :=
  match jsDefault payload with
  | .vnull => .error ()
  | p => .ok { provider := "whoop", metrics := whoopMetrics p, raw := payload }

/-- Source of oura `hrv`: `readiness.hrv_balance` over `payload.readiness || {}`. -/
def ouraHrvSource (payload : JsValue) : JsValue :=
  ((payload.get "readiness").orElse (.vobj [])).get "hrv_balance"

/-- Source of oura `sleepQuality`: `sleep.score` over
`payload.sleep || payload.sleep_summary || {}`. -/
def ouraSleepSource (payload : JsValue) : JsValue :=
  (((payload.get "sleep").orElse (payload.get "sleep_summary")).orElse (.vobj [])).get "score"

/-- Source of oura `strain`: `payload.activity?.strain || payload.activity?.score`. -/
def ouraStrainSource (payload : JsValue) : JsValue :=
  ((payload.get "activity").getOpt "strain").orElse ((payload.get "activity").getOpt "score")

/-- Source of oura `readiness`: `readiness.score`. -/
def ouraReadinessSource (payload : JsValue) : JsValue :=
  ((payload.get "readiness").orElse (.vobj [])).get "score"

/-- Source of oura `restingHeartRate`:
`sleep.resting_heart_rate || readiness.resting_heart_rate`. -/
def ouraRestingHrSource (payload : JsValue) : JsValue :=
  let readiness := (payload.get "readiness").orElse (.vobj [])
  let sleep := (payload.get "sleep").orElse ((payload.get "sleep_summary").orElse (.vobj []))
  (sleep.get "resting_heart_rate").orElse (readiness.get "resting_heart_rate")

/-- The five oura metrics over a non-null, defaulted payload. -/
def ouraMetrics (p : JsValue) : Metrics :=
  { hrv := numOrNull (ouraHrvSource p)
    sleepQuality := numOrNull (ouraSleepSource p)
    strain := numOrNull (ouraStrainSource p)
    readiness := numOrNull (ouraReadinessSource p)
    restingHeartRate := numOrNull (ouraRestingHrSource p) }

/-- `normalizeOuraPayload(payload = {})`: same TypeError-on-null shape as
the whoop adapter (`payload.readiness` on a null payload throws). -/
def normalizeOuraPayload (payload : JsValue) : Except Unit CanonicalSample :=
  match jsDefault payload with
  | .vnull => .error ()
  | p => .ok { provider := "oura", metrics := ouraMetrics p, raw := payload }

/-- The adapter registry: `{ whoop, oura }`. -/
def adapters (provider : String) : Option (JsValue → Except Unit CanonicalSample) :=
  if provider = "whoop" then some normalizeWhoopPayload
  else if provider = "oura" then some normalizeOuraPayload
  else none

/-- Errors the normalizer can raise: the explicit 400
`Unsupported provider` error, or a TypeError escaping an adapter. -/
inductive NormError where
  | unsupportedProvider
  | typeError
deriving Repr, DecidableEq

/-- `normalize(provider, payload)`: `UnsupportedProviderError` (status 400)
when no adapter is registered, otherwise apply the adapter (whose own
TypeError, if any, propagates). -/
def normalize (provider : String) (payload : JsValue) : Except NormError CanonicalSample :=
  match adapters provider with
  | none => .error .unsupportedProvider
  | some adapter =>
      match adapter payload with
      | .error _ => .error .typeError
      | .ok s => .ok s

/-! ## WHOOP token lifecycle (src/backend/src/services/whoopService.js) -/

/-- A stored token record.  `refreshToken = none` models a falsy (absent)
refresh token; `expiresAt = none` models a falsy/absent expiry timestamp
(milliseconds since epoch otherwise). -/
structure TokenRecord where
  accessToken : String
  refreshToken : Option String
  expiresAt : Option ℤ
deriving Repr, DecidableEq

/-- Body of a successful token-refresh HTTP response;
`refresh_token = none` models a response that issues no refresh token. -/
structure RefreshResponse where
  access_token : String
  refresh_token : Option String
  expires_in : ℤ
deriving Repr, DecidableEq

/-- Errors of the WHOOP service.  `reauthRequired` covers the
`Please re-authenticate.` errors, `refreshFailed` the
`Failed to refresh token` error, `notFound` the rewritten 404 message,
and `http s` an axios error propagated unchanged with
`error.response?.status = s` (`none` = no response). -/
inductive WhoopError where
  | reauthRequired
  | refreshFailed
  | notFound
  | http (status : Option ℕ)
deriving Repr, DecidableEq

/-- `refreshAccessToken(refreshToken)`: the external POST is abstracted as
its `outcome`; on success the new record keeps the old refresh token when
the response issues none (`refresh_token || refreshToken`) and sets
`expiresAt = Date.now() + expires_in * 1000`; on failure the service
throws `Failed to refresh token`. -/
def refreshAccessToken (now : ℤ) (refreshToken : String)
    (outcome : Except Unit RefreshResponse) : Except WhoopError TokenRecord :=
  match outcome with
  | .error _ => .error .refreshFailed
  | .ok r =>
      .ok { accessToken := r.access_token
            refreshToken := some (r.refresh_token.getD refreshToken)
            expiresAt := some (now + r.expires_in * 1000) }

/-- The 5-minute expiry buffer, in milliseconds. -/
def EXPIRY_BUFFER : ℤ := 5 * 60 * 1000

/-- `getValidAccessToken(userId, storedTokens)`.  Returns the token to
use together with the store update it performed (if any); the second
component counts the refresh calls issued (in every outcome).
No record or a falsy `accessToken` fails with re-authentication required;
a near-expiry record (`expiresAt` truthy and `now >= expiresAt - buffer`)
without a refresh token likewise; otherwise near-expiry triggers exactly
one refresh whose success replaces the stored record. -/
def getValidAccessToken (now : ℤ) (stored : Option TokenRecord)
    (refreshOutcome : Except Unit RefreshResponse) :
    Except WhoopError (String × Option TokenRecord) × ℕ :=
  match stored with
  | none => (.error .reauthRequired, 0)
  | some t =>
      if t.accessToken = "" then (.error .reauthRequired, 0)
      else
        let nearExpiry :=
          match t.expiresAt with
          | none => false
          | some e => decide (e ≠ 0) && decide (now ≥ e - EXPIRY_BUFFER)
        if nearExpiry then
          match t.refreshToken with
          | none => (.error .reauthRequired, 0)
          | some rt =>
              match refreshAccessToken now rt refreshOutcome with
              | .error e => (.error e, 1)
              | .ok refreshed => (.ok (refreshed.accessToken, some refreshed), 1)
        else (.ok (t.accessToken, none), 0)

/-- Trace of one `makeAuthenticatedRequest` call: its result, the last
token record written to the store (if any), how many refresh calls were
issued, and how many HTTP attempts of the request itself were made. -/
structure ReqTrace (α : Type) where
  result : Except WhoopError α
  storedAfter : Option TokenRecord
  refreshCalls : ℕ
  requestAttempts : ℕ

/-- `makeAuthenticatedRequest(userId, endpoint, ...)`.  The two possible
refresh calls (inside `getValidAccessToken`, and in the 401 handler) and
the two possible HTTP attempts are abstracted as their outcomes
(`first`/`retry` errors carry `error.response?.status`).  The 401 handler
uses the refresh token of the record captured **before**
`getValidAccessToken` ran; a 401 without that refresh token falls
through to the generic re-throw, and a 404 is replaced by a descriptive
endpoint-not-found error. -/
def makeAuthenticatedRequest {α : Type} (now : ℤ) (stored : Option TokenRecord)
    (validRefresh retryRefresh : Except Unit RefreshResponse)
    (first retry : Except (Option ℕ) α) : ReqTrace α :=
  match getValidAccessToken now stored validRefresh with
  | (.error e, n) => ⟨.error e, none, n, 0⟩
  | (.ok (_, upd), n) =>
      match first with
      | .ok d => ⟨.ok d, upd, n, 1⟩
      | .error status =>
          match status, stored.bind (·.refreshToken) with
          | some 401, some rt =>
              match refreshAccessToken now rt retryRefresh with
              | .ok refreshed =>
                  match retry with
                  | .ok d => ⟨.ok d, some refreshed, n + 1, 2⟩
                  | .error _ => ⟨.error .reauthRequired, some refreshed, n + 1, 2⟩
              | .error _ => ⟨.error .reauthRequired, upd, n + 1, 1⟩
          | s, _ =>
              if s = some 404 then ⟨.error .notFound, upd, n, 1⟩
              else ⟨.error (.http s), upd, n, 1⟩

/-! ## OAuth state generation (whoopService + wearableRoutes /whoop/login)

`Math.random()` returns a double in [0,1); `x.toString(36)` renders it as
`"0"` when x = 0 and `"0." ++ digits` otherwise, where `digits` is the
(possibly very short) base-36 fractional expansion — e.g. 0.5 renders as
`"0.i"`.  A random outcome is therefore modelled by its fractional digit
string. -/

/-- `Math.random().toString(36)` for the outcome with fractional
expansion `frac`. -/
def randToString (frac : String) : String :=
  if frac = "" then "0" else "0." ++ frac

/-- `generateState()`: `Math.random().toString(36).substring(2, 10)`. -/
def generateState (frac : String) : String :=
  (((randToString frac).drop 2).take 8)

/-- Fixed scope string of the authorization URL. -/
def WHOOP_SCOPES : String :=
  "read:recovery read:cycles read:workout read:sleep read:profile offline"

/-- `getAuthorizationUrl(userId, state)` (credentials assumed
configured): a state shorter than 8 characters (or absent) is replaced
by a fresh `generateState()` draw (`frac2`).  Returns the redirect URL
and the state value embedded in it. -/
def getAuthorizationUrl (clientId redirectUri : String) (frac2 : String)
    (state : Option String) : String × String :=
  let stateValue :=
    match state with
    | none => generateState frac2
    | some s => if s.length < 8 then generateState frac2 else s
  ("https://api.prod.whoop.com/oauth/oauth2/auth?response_type=code&client_id=" ++
     clientId ++ "&redirect_uri=" ++ redirectUri ++ "&scope=" ++ WHOOP_SCOPES ++
     "&state=" ++ stateValue,
   stateValue)

/-- `GET /whoop/login`: builds
`state = generateState() + '_' + userId.substring(0, 7)` and redirects to
`getAuthorizationUrl(userId, state)`.  `frac1` and `frac2` are the two
possible random draws. -/
def whoopLogin (clientId redirectUri userId : String) (frac1 frac2 : String) :
    String × String :=
  let state := generateState frac1 ++ "_" ++ userId.take 7
  getAuthorizationUrl clientId redirectUri frac2 (some state)

/-! ## Spotify track resolution (src/unnamed/part_008, first module) -/

/-- A raw Spotify track record as `mapTrack` reads it (the optional
chains over `external_urls` / `album.images` already collapsed to their
number-or-null results). -/
structure RawTrack where
  id : String
  name : String
  artists : List String
  previewUrl : Option String
  uri : Option String
  externalUrl : Option String
  albumArt : Option String
deriving Repr, DecidableEq

/-- The lean client-facing track shape produced by `mapTrack`. -/
structure Track where
  id : String
  name : String
  artists : List String
  previewUrl : Option String
  uri : Option String
  externalUrl : Option String
  albumArt : Option String
deriving Repr, DecidableEq

/-- `mapTrack(track)`. -/
def mapTrack (t : RawTrack) : Track :=
  { id := t.id, name := t.name, artists := t.artists,
    previewUrl := t.previewUrl, uri := t.uri,
    externalUrl := t.externalUrl, albumArt := t.albumArt }

/-- Swap of two list positions (identity when either is out of range). -/
def listSwap {α : Type} (l : List α) (i j : ℕ) : List α :=
  match l.get? i, l.get? j with
  | some a, some b => (l.set i b).set j a
  | _, _ => l

/-- The Fisher–Yates loop of `shuffle`, from index `i` down to 1;
`rand i` abstracts `Math.floor(Math.random() * (i + 1))`, a value in
`[0, i]` (clamped into range). -/
def shuffleFrom {α : Type} (rand : ℕ → ℕ) (l : List α) : ℕ → List α
  | 0 => l
  | i + 1 => shuffleFrom rand (listSwap l (i + 1) (min (rand (i + 1)) (i + 1))) i

/-- `shuffle(array)`: copy, then Fisher–Yates from `length - 1` down to 1. -/
def shuffle {α : Type} (rand : ℕ → ℕ) (l : List α) : List α :=
  match l.length with
  | 0 => l
  | n + 1 => shuffleFrom rand l n

/-- `MOOD_PRESETS`: three fixed queries per mood label. -/
def MOOD_PRESETS (label : String) : Option (List String) :=
  if label = "flow" then some ["\"deep focus\"", "chill instrumental", "ambient focus"]
  else if label = "amped" then some ["high energy workout", "edm bangers", "alt rock hype"]
  else if label = "recovery" then some ["calm acoustic sleep", "lofi meditation", "piano relaxation"]
  else if label = "reset" then some ["feel good indie", "uplifting pop", "jazzy morning"]
  else none

/-- `getPreset(label)`: `MOOD_PRESETS[label] || MOOD_PRESETS.reset`. -/
def getPreset (label : String) : List String :=
  (MOOD_PRESETS label).getD ["feel good indie", "uplifting pop", "jazzy morning"]

/-- The mood object as `fetchLiveTracks` reads it:
`mood.playlistHints?.searchQuery` and `mood.playlistHints?.seedGenres || []`. -/
structure MoodInput where
  label : String
  searchQuery : Option String
  seedGenres : List String
deriving Repr, DecidableEq

/-- JS string truthiness of an optional string. -/
def strTruthy : Option String → Bool
  | none => false
  | some s => !(s == "")

/-- `genreQuery`: `seedGenres.length ? seedGenres.join(' ') + ' ' + label : null`. -/
def genreQuery (mood : MoodInput) : Option String :=
  if mood.seedGenres.length ≠ 0 then
    some (String.intercalate " " mood.seedGenres ++ " " ++ mood.label)
  else none

/-- The ordered candidate-query list `attempts`, already passed through
`.filter(Boolean)`. -/
def searchAttempts (mood : MoodInput) (useAI : Bool) : List String :=
  ((if useAI && strTruthy mood.searchQuery then [mood.searchQuery.getD ""] else []) ++
   (if useAI && strTruthy (genreQuery mood) then [(genreQuery mood).getD ""] else []) ++
   getPreset mood.label ++ [mood.label]).filter (fun q => q ≠ "")

/-- `isAiSource`: `(query === aiQuery) || (query === genreQuery)`. -/
def isAiSource (mood : MoodInput) (query : String) : Bool :=
  (some query == mood.searchQuery) || (some query == genreQuery mood)

/-- Result of a successful live fetch. -/
structure FetchResult where
  source : String
  query : String
  tracks : List Track
deriving Repr, DecidableEq

/-- Failures of `fetchLiveTracks`: `Spotify token expired` (status 401)
and `Spotify search returned no tracks` (status 502). -/
inductive FetchError where
  | tokenExpired
  | noResults
deriving Repr, DecidableEq

/-- The candidate loop of `fetchLiveTracks`.  `searchFn q` abstracts
`searchTracks(accessToken, q, 30)` (its error carries
`error.response?.status`).  Returns the outcome together with the number
of search calls issued.  A non-empty result returns immediately
(shuffle, take 20, map); an empty result or a non-401 failure continues
with the next candidate; a 401 aborts with the token-expired error;
exhaustion fails with no-results. -/
def fetchLoop (searchFn : String → Except (Option ℕ) (List RawTrack))
    (rand : ℕ → ℕ) (isAi : String → Bool) :
    List String → Except FetchError FetchResult × ℕ
  | [] => (.error .noResults, 0)
  | q :: rest =>
      match searchFn q with
      | .ok items =>
          if items.length ≠ 0 then
            (.ok { source := if isAi q then "openai-search" else "spotify-search"
                   query := q
                   tracks := ((shuffle rand items).take 20).map mapTrack }, 1)
          else
            let r := fetchLoop searchFn rand isAi rest
            (r.1, r.2 + 1)
      | .error status =>
          if status = some 401 then (.error .tokenExpired, 1)
          else
            let r := fetchLoop searchFn rand isAi rest
            (r.1, r.2 + 1)

/-- `fetchLiveTracks(accessToken, mood, useAI)`. -/
def fetchLiveTracks (searchFn : String → Except (Option ℕ) (List RawTrack))
    (rand : ℕ → ℕ) (mood : MoodInput) (useAI : Bool) :
    Except FetchError FetchResult × ℕ :=
  fetchLoop searchFn rand (isAiSource mood) (searchAttempts mood useAI)

/-- The `reset` entry of `FALLBACK_TRACKS` (also the default for unknown
labels). -/
def resetFallback : List Track :=
  [ { id := "reset-1", name := "New Ground", artists := ["Vista Bloom"],
      previewUrl := none, uri := none, externalUrl := none, albumArt := none }
  , { id := "reset-2", name := "Field Notes", artists := ["Lucent"],
      previewUrl := none, uri := none, externalUrl := none, albumArt := none } ]

/-- `FALLBACK_TRACKS`: the static per-mood track lists. -/
def FALLBACK_TRACKS (label : String) : Option (List Track) :=
  if label = "flow" then some
    [ { id := "flow-1", name := "Deep Focus Echoes", artists := ["Analog Atlas"],
        previewUrl := none, uri := none, externalUrl := none, albumArt := none }
    , { id := "flow-2", name := "Glider State", artists := ["Marin"],
        previewUrl := none, uri := none, externalUrl := none, albumArt := none } ]
  else if label = "amped" then some
    [ { id := "amped-1", name := "Voltage Push", artists := ["Strobe City"],
        previewUrl := none, uri := none, externalUrl := none, albumArt := none }
    , { id := "amped-2", name := "Sprintline", artists := ["Pulse Engine"],
        previewUrl := none, uri := none, externalUrl := none, albumArt := none } ]
  else if label = "recovery" then some
    [ { id := "recovery-1", name := "Soft Reset", artists := ["Quiet Season"],
        previewUrl := none, uri := none, externalUrl := none, albumArt := none }
    , { id := "recovery-2", name := "Blue Hour Drift", artists := ["Cumulus"],
        previewUrl := none, uri := none, externalUrl := none, albumArt := none } ]
  else if label = "reset" then some resetFallback
  else none

/-- `getFallbackTracks(label)`: `FALLBACK_TRACKS[label] || FALLBACK_TRACKS.reset`. -/
def getFallbackTracks (label : String) : List Track :=
  (FALLBACK_TRACKS label).getD resetFallback

/-! ## Track-selection step of POST / (src/unnamed/part_002, lines 83-99) -/

/-- The route's track selection: with a truthy access token, try the live
fetch and fall back to the static list on any failure; without one, skip
straight to the static fallback.  Second component counts the external
search calls issued. -/
def routeTrackSelection (accessToken : Option String)
    (searchFn : String → Except (Option ℕ) (List RawTrack))
    (rand : ℕ → ℕ) (mood : MoodInput) (useAI : Bool) :
    (List Track × String) × ℕ :=
  if strTruthy accessToken then
    match fetchLiveTracks searchFn rand mood useAI with
    | (.ok res, n) => ((res.tracks, res.source), n)
    | (.error _, n) => ((getFallbackTracks mood.label, "fallback"), n)
  else ((getFallbackTracks mood.label, "fallback"), 0)

/-! ## Concrete inputs used by witnesses -/

/-- A whoop payload whose every metric source coerces to 0 (or NaN). -/
def whoopZeroPayload : JsValue :=
  .vobj [("recovery", .vobj [("hrv", .vnum 0), ("score", .vnum 0),
                             ("resting_heart_rate", .vnum 0)]),
         ("sleep", .vobj [("score", .vnum 0)]),
         ("strain", .vnum 0)]

/-- An oura payload whose every metric source coerces to 0 (or NaN). -/
def ouraZeroPayload : JsValue :=
  .vobj [("readiness", .vobj [("hrv_balance", .vnum 0), ("score", .vnum 0),
                              ("resting_heart_rate", .vnum 0)]),
         ("sleep", .vobj [("score", .vnum 0), ("resting_heart_rate", .vnum 0)]),
         ("activity", .vobj [("strain", .vnum 0)])]

/-- Two concrete stored samples: hrv present in exactly one of them. -/
def witnessEntries : List Sample :=
  [ { provider := "whoop", metrics := ⟨some 50, none, none, none, none⟩ }
  , { provider := "oura", metrics := ⟨none, some 80, none, none, none⟩ } ]

/-! ## Theorems -/

/-- Helper: the first rule wins whenever its predicate holds. -/
theorem computeMood_label_flow (f : Features)
    (hr : f.readinessScore > 7/10) (hs : f.sleepScore > 7/10) :
    (computeMood f).label = .flow := by
  show ((MOOD_LABELS.find? fun c => c.condition f).map (·.label)).getD .reset = .flow
  simp only [MOOD_LABELS]
  rw [List.find?_cons_of_pos]
  · rfl
  · simp [hr, hs]

/-- Helper: the catch-all fires when no earlier predicate holds. -/
theorem computeMood_label_reset (g : Features)
    (h1 : ¬(g.readinessScore > 7/10 ∧ g.sleepScore > 7/10))
    (h2 : ¬(g.strainScore > 6/10 ∧ g.readinessScore > 55/100))
    (h3 : ¬(g.readinessScore < 45/100 ∨ g.sleepScore < 45/100)) :
    (computeMood g).label = .reset := by
  show ((MOOD_LABELS.find? fun c => c.condition g).map (·.label)).getD .reset = .reset
  simp only [MOOD_LABELS]
  rw [List.find?_cons_of_neg, List.find?_cons_of_neg, List.find?_cons_of_neg,
      List.find?_cons_of_pos]
  · rfl
  · exact rfl
  · simpa using h3
  · simpa using h2
  · simpa using h1

/-- C1: Mood selection evaluates the rule list in the fixed order flow,
amped, recovery, reset and returns the first rule whose predicate holds:
any feature vector with readinessScore > 0.70 and sleepScore > 0.70 is
labelled `flow` regardless of strainScore (in particular
readiness = 0.85, sleep = 0.90, strain = 0.9 yields `flow`, not `amped`),
and a vector matching none of the first three predicates gets the
unconditional catch-all `reset`. -/
theorem mood_rules_first_match_wins (f : Features)
    (hr : f.readinessScore > 7/10) (hs : f.sleepScore > 7/10) :
    (computeMood f).label = .flow
    ∧ (computeMood { readinessScore := 85/100, recoveryScore := 1/2,
                     sleepScore := 9/10, strainScore := 9/10,
                     restingHrScore := 1/2 }).label = .flow
    ∧ (∀ g : Features,
        ¬(g.readinessScore > 7/10 ∧ g.sleepScore > 7/10) →
        ¬(g.strainScore > 6/10 ∧ g.readinessScore > 55/100) →
        ¬(g.readinessScore < 45/100 ∨ g.sleepScore < 45/100) →
        (computeMood g).label = .reset) := by
  exact ⟨computeMood_label_flow f hr hs,
         computeMood_label_flow _ (by norm_num) (by norm_num),
         fun g h1 h2 h3 => computeMood_label_reset g h1 h2 h3⟩

/-- C2: aggregating `k` samples where a metric key is non-null in exactly
`j` of them yields `round(sum / j, 2)` when `j > 0` and null when
`j = 0`; aggregating zero samples yields absence (`none`), not an empty
structure; on a non-empty store the aggregate's metric fields are exactly
these per-key averages. -/
theorem aggregate_metric_averages (entries : List Sample) (nowIso : String)
    (key : Metrics → Option ℚ) (j : ℕ)
    (hj : (entries.filterMap fun e => key e.metrics).length = j) :
    (averageMetric entries key =
      if j = 0 then none
      else some (round2 ((entries.filterMap fun e => key e.metrics).sum / (j : ℚ))))
    ∧ getAggregatedMetrics [] nowIso = none
    ∧ (entries ≠ [] → ∃ agg, getAggregatedMetrics entries nowIso = some agg ∧
        agg.sampleCount = entries.length ∧
        agg.metrics = { hrv := averageMetric entries Metrics.hrv
                        sleepQuality := averageMetric entries Metrics.sleepQuality
                        strain := averageMetric entries Metrics.strain
                        readiness := averageMetric entries Metrics.readiness
                        restingHeartRate := averageMetric entries Metrics.restingHeartRate }) := by
  refine ⟨?_, rfl, ?_⟩
  · simp only [averageMetric, hj]
  · intro hne
    have hlen : entries.length ≠ 0 := (List.length_pos.mpr hne).ne'
    refine ⟨{ sampleCount := entries.length
              providers := entries.map (·.provider)
              lastUpdated := nowIso
              metrics := { hrv := averageMetric entries Metrics.hrv
                           sleepQuality := averageMetric entries Metrics.sleepQuality
                           strain := averageMetric entries Metrics.strain
                           readiness := averageMetric entries Metrics.readiness
                           restingHeartRate := averageMetric entries Metrics.restingHeartRate } },
           ?_, rfl, rfl⟩
    unfold getAggregatedMetrics
    rw [if_neg hlen]

/-- C1 witness: the rule-precedence theorem applied to the
would-be-amped vector readiness = 0.85, sleep = 0.90, strain = 0.9. -/
theorem mood_rules_first_match_wins_witness :
    ((85 : ℚ)/100 > 7/10 ∧ (9 : ℚ)/10 > 7/10) ∧
    (computeMood { readinessScore := 85/100, recoveryScore := 1/2,
                   sleepScore := 9/10, strainScore := 9/10,
                   restingHrScore := 1/2 }).label = .flow :=
  ⟨⟨by norm_num, by norm_num⟩,
   (mood_rules_first_match_wins
      { readinessScore := 85/100, recoveryScore := 1/2, sleepScore := 9/10,
        strainScore := 9/10, restingHrScore := 1/2 }
      (by norm_num) (by norm_num)).1⟩

/-- C2 witness: two stored samples, hrv non-null in exactly one; the
average is that value, and the empty store aggregates to `none`. -/
theorem aggregate_metric_averages_witness :
    ((witnessEntries.filterMap fun e => Metrics.hrv e.metrics).length = 1) ∧
    ((averageMetric witnessEntries Metrics.hrv =
        if 1 = 0 then none
        else some (round2
          ((witnessEntries.filterMap fun e => Metrics.hrv e.metrics).sum / ((1 : ℕ) : ℚ))))
      ∧ getAggregatedMetrics [] "2024-01-01" = none
      ∧ (witnessEntries ≠ [] → ∃ agg,
          getAggregatedMetrics witnessEntries "2024-01-01" = some agg ∧
          agg.sampleCount = witnessEntries.length ∧
          agg.metrics = { hrv := averageMetric witnessEntries Metrics.hrv
                          sleepQuality := averageMetric witnessEntries Metrics.sleepQuality
                          strain := averageMetric witnessEntries Metrics.strain
                          readiness := averageMetric witnessEntries Metrics.readiness
                          restingHeartRate := averageMetric witnessEntries Metrics.restingHeartRate })) :=
  ⟨rfl, aggregate_metric_averages witnessEntries "2024-01-01" Metrics.hrv 1 rfl⟩

/-- C3 counterexample: with the registered provider `whoop` and the raw
payload `null`, `normalize` does not return a sample — the adapter's
first member access `payload.recovery` raises a TypeError (the
`payload = {}` default only replaces an `undefined` argument), so
`normalize` throws for a known provider id, falsifying the
never-throws-except-unknown-provider claim. -/
theorem normalize_null_payload_throws :
    normalize "whoop" .vnull = .error .typeError ∧
    ∀ s, normalize "whoop" .vnull ≠ .ok s := by
  refine ⟨rfl, fun s h => ?_⟩
  rw [show normalize "whoop" .vnull = .error .typeError from rfl] at h
  exact Except.noConfusion h

/-- C3 amended: for every registered provider id and every payload value
other than null (undefined included — the default parameter replaces it
with `{}`), `normalize` returns a CanonicalSample with all five metric
fields present (each number-or-null by construction); it returns the
UnsupportedProviderError exactly for unregistered provider ids. -/
theorem normalize_total_amended (provider : String) (payload : JsValue)
    (hnn : payload ≠ .vnull) :
    (provider = "whoop" ∨ provider = "oura" →
       ∃ s, normalize provider payload = .ok s)
    ∧ (provider ≠ "whoop" → provider ≠ "oura" →
       normalize provider payload = .error .unsupportedProvider) := by
  constructor
  · rintro (rfl | rfl)
    · cases payload
      case vnull => exact absurd rfl hnn
      all_goals exact ⟨_, rfl⟩
    · cases payload
      case vnull => exact absurd rfl hnn
      all_goals exact ⟨_, rfl⟩
  · intro h1 h2
    simp [normalize, adapters, h1, h2]

/-- C3 witness: the amended totality theorem at provider `whoop` and the
undefined payload. -/
theorem normalize_total_amended_witness :
    (JsValue.vundefined ≠ JsValue.vnull) ∧
    (∃ s, normalize "whoop" .vundefined = .ok s) ∧
    normalize "garmin" .vundefined = .error .unsupportedProvider :=
  ⟨fun h => JsValue.noConfusion h,
   (normalize_total_amended "whoop" .vundefined (fun h => JsValue.noConfusion h)).1
     (Or.inl rfl),
   (normalize_total_amended "garmin" .vundefined (fun h => JsValue.noConfusion h)).2
     (by decide) (by decide)⟩

/-- Helper: `Number(x) || null` collapses a 0-coercion and a
NaN-coercion to null. -/
theorem numOrNull_zero_or_nan (v : JsValue)
    (h : jsToNumber v = some 0 ∨ jsToNumber v = none) : numOrNull v = none := by
  unfold numOrNull
  rcases h with h | h
  · rw [h]; simp
  · rw [h]

/-- C10: in both provider mappings, a raw metric whose extracted source
value coerces numerically to 0 or to NaN is stored as null in the
canonical metrics; a null metric is excluded from the aggregation
average, and the feature-vector builder replaces it by its default
(recoveryScore 0.5 for a null hrv). -/
theorem zero_nan_coercion_stored_null :
    (∀ v, jsToNumber v = some 0 ∨ jsToNumber v = none → numOrNull v = none)
  ∧ (∀ p, jsToNumber (whoopHrvSource p) = some 0 ∨ jsToNumber (whoopHrvSource p) = none →
      (whoopMetrics p).hrv = none)
  ∧ (∀ p, jsToNumber (whoopSleepSource p) = some 0 ∨ jsToNumber (whoopSleepSource p) = none →
      (whoopMetrics p).sleepQuality = none)
  ∧ (∀ p, jsToNumber (whoopStrainSource p) = some 0 ∨ jsToNumber (whoopStrainSource p) = none →
      (whoopMetrics p).strain = none)
  ∧ (∀ p, jsToNumber (whoopReadinessSource p) = some 0 ∨ jsToNumber (whoopReadinessSource p) = none →
      (whoopMetrics p).readiness = none)
  ∧ (∀ p, jsToNumber (whoopRestingHrSource p) = some 0 ∨ jsToNumber (whoopRestingHrSource p) = none →
      (whoopMetrics p).restingHeartRate = none)
  ∧ (∀ p, jsToNumber (ouraHrvSource p) = some 0 ∨ jsToNumber (ouraHrvSource p) = none →
      (ouraMetrics p).hrv = none)
  ∧ (∀ p, jsToNumber (ouraSleepSource p) = some 0 ∨ jsToNumber (ouraSleepSource p) = none →
      (ouraMetrics p).sleepQuality = none)
  ∧ (∀ p, jsToNumber (ouraStrainSource p) = some 0 ∨ jsToNumber (ouraStrainSource p) = none →
      (ouraMetrics p).strain = none)
  ∧ (∀ p, jsToNumber (ouraReadinessSource p) = some 0 ∨ jsToNumber (ouraReadinessSource p) = none →
      (ouraMetrics p).readiness = none)
  ∧ (∀ p, jsToNumber (ouraRestingHrSource p) = some 0 ∨ jsToNumber (ouraRestingHrSource p) = none →
      (ouraMetrics p).restingHeartRate = none)
  ∧ (∀ (entries : List Sample) (s : Sample) (key : Metrics → Option ℚ),
      key s.metrics = none → averageMetric (s :: entries) key = averageMetric entries key)
  ∧ (∀ m : Metrics, m.hrv = none → (buildFeatureVector m).recoveryScore = 1/2) := by
  refine ⟨numOrNull_zero_or_nan,
          fun p h => numOrNull_zero_or_nan _ h, fun p h => numOrNull_zero_or_nan _ h,
          fun p h => numOrNull_zero_or_nan _ h, fun p h => numOrNull_zero_or_nan _ h,
          fun p h => numOrNull_zero_or_nan _ h, fun p h => numOrNull_zero_or_nan _ h,
          fun p h => numOrNull_zero_or_nan _ h, fun p h => numOrNull_zero_or_nan _ h,
          fun p h => numOrNull_zero_or_nan _ h, fun p h => numOrNull_zero_or_nan _ h,
          ?_, ?_⟩
  · intro entries s key h
    unfold averageMetric
    simp [List.filterMap_cons, h]
  · intro m h
    simp [buildFeatureVector, normalizeScale, h]

/-- C10 witness: payloads whose every metric source coerces to 0 (or to
NaN for the oura strain fall-through) have all-null canonical metrics;
appending a null-hrv sample leaves the hrv average unchanged; the
feature default fills in. -/
theorem zero_nan_coercion_stored_null_witness :
    numOrNull (.vnum 0) = none
  ∧ (whoopMetrics whoopZeroPayload).hrv = none
  ∧ (whoopMetrics whoopZeroPayload).sleepQuality = none
  ∧ (whoopMetrics whoopZeroPayload).strain = none
  ∧ (whoopMetrics whoopZeroPayload).readiness = none
  ∧ (whoopMetrics whoopZeroPayload).restingHeartRate = none
  ∧ (ouraMetrics ouraZeroPayload).hrv = none
  ∧ (ouraMetrics ouraZeroPayload).sleepQuality = none
  ∧ (ouraMetrics ouraZeroPayload).strain = none
  ∧ (ouraMetrics ouraZeroPayload).readiness = none
  ∧ (ouraMetrics ouraZeroPayload).restingHeartRate = none
  ∧ averageMetric ({ provider := "whoop", metrics := ⟨none, none, none, none, none⟩ } ::
      witnessEntries) Metrics.hrv = averageMetric witnessEntries Metrics.hrv
  ∧ (buildFeatureVector ⟨none, none, none, none, none⟩).recoveryScore = 1/2 := by
  obtain ⟨a, b1, b2, b3, b4, b5, c1, c2, c3, c4, c5, d, e⟩ := zero_nan_coercion_stored_null
  exact ⟨a (.vnum 0) (Or.inl rfl),
         b1 whoopZeroPayload (Or.inl rfl), b2 whoopZeroPayload (Or.inl rfl),
         b3 whoopZeroPayload (Or.inl rfl), b4 whoopZeroPayload (Or.inl rfl),
         b5 whoopZeroPayload (Or.inl rfl),
         c1 ouraZeroPayload (Or.inl rfl), c2 ouraZeroPayload (Or.inl rfl),
         c3 ouraZeroPayload (Or.inr rfl), c4 ouraZeroPayload (Or.inl rfl),
         c5 ouraZeroPayload (Or.inl rfl),
         d witnessEntries { provider := "whoop", metrics := ⟨none, none, none, none, none⟩ }
           Metrics.hrv rfl,
         e ⟨none, none, none, none, none⟩ rfl⟩

/-- C4: with a stored token record, `getValidAccessToken` refreshes
exactly once when the current time is within the 5-minute buffer of
`expiresAt` and not otherwise (then returning the stored access token
unchanged with no store update); a successful refresh replaces the
stored record — keeping the old refresh token when the response issues
none — and returns the new access token; no stored record, or a
near-expiry record without a refresh token, fails with the
re-authentication-required error. -/
theorem token_refresh_within_buffer (now e : ℤ) (t : TokenRecord) (rt : String)
    (resp : RefreshResponse) (r : Except Unit RefreshResponse)
    (hacc : t.accessToken ≠ "") (hexp : t.expiresAt = some e) (he : e ≠ 0) :
    (getValidAccessToken now none r = (.error .reauthRequired, 0))
  ∧ (now ≥ e - EXPIRY_BUFFER → t.refreshToken = some rt →
      getValidAccessToken now (some t) (.ok resp) =
        (.ok (resp.access_token,
              some { accessToken := resp.access_token
                     refreshToken := some (resp.refresh_token.getD rt)
                     expiresAt := some (now + resp.expires_in * 1000) }), 1))
  ∧ (now ≥ e - EXPIRY_BUFFER → t.refreshToken = none →
      getValidAccessToken now (some t) r = (.error .reauthRequired, 0))
  ∧ (now < e - EXPIRY_BUFFER →
      getValidAccessToken now (some t) r = (.ok (t.accessToken, none), 0)) := by
  refine ⟨rfl, ?_, ?_, ?_⟩
  · intro hge hrt
    simp [getValidAccessToken, hacc, hexp, he, hge, hrt, refreshAccessToken]
  · intro hge hrt
    simp [getValidAccessToken, hacc, hexp, he, hge, hrt]
  · intro hlt
    simp [getValidAccessToken, hacc, hexp, he, not_le.mpr hlt]

/-- C4 witness: at time 1_000_000 a record expiring at 1_100_000 is
inside the buffer and gets the single refresh (the response issues no
refresh token, so the old one is kept); a record expiring at 99_999_999
is outside it and is returned unchanged; the no-record and
no-refresh-token cases fail with re-authentication required. -/
theorem token_refresh_within_buffer_witness :
    (getValidAccessToken 1000000 none (.ok ⟨"x", none, 0⟩) =
      (.error .reauthRequired, 0))
  ∧ (getValidAccessToken 1000000 (some ⟨"tok", some "rt", some 1100000⟩)
        (.ok ⟨"newtok", none, 3600⟩) =
      (.ok ("newtok", some { accessToken := "newtok"
                             refreshToken := some ((none : Option String).getD "rt")
                             expiresAt := some (1000000 + 3600 * 1000) }), 1))
  ∧ (getValidAccessToken 1000000 (some ⟨"tok2", none, some 1100000⟩)
        (.ok ⟨"x", none, 0⟩) = (.error .reauthRequired, 0))
  ∧ (getValidAccessToken 1000000 (some ⟨"tok3", some "rt3", some 99999999⟩)
        (.ok ⟨"x", none, 0⟩) = (.ok ("tok3", none), 0)) := by
  refine ⟨(token_refresh_within_buffer 1000000 1100000 ⟨"tok", some "rt", some 1100000⟩
            "rt" ⟨"newtok", none, 3600⟩ (.ok ⟨"x", none, 0⟩)
            (by decide) rfl (by decide)).1,
          (token_refresh_within_buffer 1000000 1100000 ⟨"tok", some "rt", some 1100000⟩
            "rt" ⟨"newtok", none, 3600⟩ (.ok ⟨"x", none, 0⟩)
            (by decide) rfl (by decide)).2.1 (by decide) rfl,
          (token_refresh_within_buffer 1000000 1100000 ⟨"tok2", none, some 1100000⟩
            "rt" ⟨"x", none, 0⟩ (.ok ⟨"x", none, 0⟩)
            (by decide) rfl (by decide)).2.2.1 (by decide) rfl,
          (token_refresh_within_buffer 1000000 99999999 ⟨"tok3", some "rt3", some 99999999⟩
            "rt3" ⟨"x", none, 0⟩ (.ok ⟨"x", none, 0⟩)
            (by decide) rfl (by decide)).2.2.2 (by decide)⟩

/-- C5 counterexample: two failures of the claim on concrete requests
with a valid, far-from-expiry token.  (a) A 404 first response does not
propagate unchanged: the code replaces it with a descriptive
endpoint-not-found error (a fresh Error losing the response status).
(b) A 401 first response with no stored refresh token triggers no
refresh-and-retry at all — zero refresh calls, one request attempt — and
the raw 401 propagates instead of the claimed ReauthRequiredError. -/
theorem authenticated_request_counterexample :
    ((makeAuthenticatedRequest (α := Unit) 1000000
        (some ⟨"tok", some "rt", some 999999999⟩)
        (.ok ⟨"x", none, 0⟩) (.ok ⟨"x", none, 0⟩)
        (.error (some 404)) (.ok ())).result = .error .notFound
      ∧ (Except.error WhoopError.notFound : Except WhoopError Unit) ≠
          .error (.http (some 404)))
  ∧ ((makeAuthenticatedRequest (α := Unit) 1000000
        (some ⟨"tok", none, some 999999999⟩)
        (.ok ⟨"x", none, 0⟩) (.ok ⟨"x", none, 0⟩)
        (.error (some 401)) (.ok ())).result = .error (.http (some 401))
      ∧ (makeAuthenticatedRequest (α := Unit) 1000000
          (some ⟨"tok", none, some 999999999⟩)
          (.ok ⟨"x", none, 0⟩) (.ok ⟨"x", none, 0⟩)
          (.error (some 401)) (.ok ())).refreshCalls = 0
      ∧ (makeAuthenticatedRequest (α := Unit) 1000000
          (some ⟨"tok", none, some 999999999⟩)
          (.ok ⟨"x", none, 0⟩) (.ok ⟨"x", none, 0⟩)
          (.error (some 401)) (.ok ())).requestAttempts = 1
      ∧ (Except.error (WhoopError.http (some 401)) : Except WhoopError Unit) ≠
          .error .reauthRequired) :=
  ⟨⟨rfl, by simp⟩, rfl, rfl, rfl, by simp⟩

/-- C5 amended: with a valid far-from-expiry token, a 401 first response
with a stored refresh token triggers exactly one refresh-and-retry
(retry success returns its data; retry failure or refresh failure fails
with the re-authentication-required error); a 401 without a stored
refresh token propagates unchanged with zero refreshes; any failure
status other than 401 and 404 propagates unchanged after zero retries;
a 404 is replaced by the descriptive endpoint-not-found error. -/
theorem authenticated_request_retry_once (now e : ℤ) (t : TokenRecord)
    {α : Type} (d : α) (retry : Except (Option ℕ) α)
    (rt : String) (resp : RefreshResponse) (s : Option ℕ)
    (vr : Except Unit RefreshResponse)
    (hacc : t.accessToken ≠ "") (hexp : t.expiresAt = some e) (he : e ≠ 0)
    (hfar : now < e - EXPIRY_BUFFER) :
    (t.refreshToken = some rt →
      makeAuthenticatedRequest now (some t) vr (.ok resp) (.error (some 401)) (.ok d) =
        ⟨.ok d, some { accessToken := resp.access_token
                       refreshToken := some (resp.refresh_token.getD rt)
                       expiresAt := some (now + resp.expires_in * 1000) }, 1, 2⟩)
  ∧ (t.refreshToken = some rt → ∀ s',
      makeAuthenticatedRequest (α := α) now (some t) vr (.ok resp) (.error (some 401)) (.error s') =
        ⟨.error .reauthRequired,
         some { accessToken := resp.access_token
                refreshToken := some (resp.refresh_token.getD rt)
                expiresAt := some (now + resp.expires_in * 1000) }, 1, 2⟩)
  ∧ (t.refreshToken = some rt →
      makeAuthenticatedRequest now (some t) vr (.error ()) (.error (some 401)) retry =
        ⟨.error .reauthRequired, none, 1, 1⟩)
  ∧ (t.refreshToken = none →
      makeAuthenticatedRequest now (some t) vr (.ok resp) (.error (some 401)) retry =
        ⟨.error (.http (some 401)), none, 0, 1⟩)
  ∧ (s ≠ some 401 → s ≠ some 404 →
      makeAuthenticatedRequest now (some t) vr (.ok resp) (.error s) retry =
        ⟨.error (.http s), none, 0, 1⟩)
  ∧ (makeAuthenticatedRequest now (some t) vr (.ok resp) (.error (some 404)) retry =
      ⟨.error .notFound, none, 0, 1⟩) := by
  have hvalid : ∀ r, getValidAccessToken now (some t) r = (.ok (t.accessToken, none), 0) := by
    intro r
    simp [getValidAccessToken, hacc, hexp, he, not_le.mpr hfar]
  refine ⟨?_, ?_, ?_, ?_, ?_, ?_⟩
  · intro hrt
    simp [makeAuthenticatedRequest, hvalid, hrt, refreshAccessToken]
  · intro hrt s'
    simp [makeAuthenticatedRequest, hvalid, hrt, refreshAccessToken]
  · intro hrt
    simp [makeAuthenticatedRequest, hvalid, hrt, refreshAccessToken]
  · intro hrt
    simp [makeAuthenticatedRequest, hvalid, hrt]
  · intro h401 h404
    unfold makeAuthenticatedRequest
    rw [hvalid]
    dsimp only
    split
    · exact absurd rfl h401
    · rw [if_neg h404]
  · unfold makeAuthenticatedRequest
    rw [hvalid]
    simp

/-- C5 witness: the amended retry-once theorem at concrete requests
(valid token far from expiry; refresh token `"rt"` stored where
applicable). -/
theorem authenticated_request_retry_once_witness :
    (makeAuthenticatedRequest (α := ℕ) 1000000 (some ⟨"tok", some "rt", some 999999999⟩)
        (.ok ⟨"x", none, 0⟩) (.ok ⟨"newtok", none, 3600⟩) (.error (some 401)) (.ok 7) =
      ⟨.ok 7, some { accessToken := "newtok"
                     refreshToken := some ((none : Option String).getD "rt")
                     expiresAt := some (1000000 + 3600 * 1000) }, 1, 2⟩)
  ∧ (makeAuthenticatedRequest (α := ℕ) 1000000 (some ⟨"tok", some "rt", some 999999999⟩)
        (.ok ⟨"x", none, 0⟩) (.ok ⟨"newtok", none, 3600⟩) (.error (some 401)) (.error (some 500)) =
      ⟨.error .reauthRequired,
       some { accessToken := "newtok"
              refreshToken := some ((none : Option String).getD "rt")
              expiresAt := some (1000000 + 3600 * 1000) }, 1, 2⟩)
  ∧ (makeAuthenticatedRequest (α := ℕ) 1000000 (some ⟨"tok", some "rt", some 999999999⟩)
        (.ok ⟨"x", none, 0⟩) (.error ()) (.error (some 401)) (.ok 7) =
      ⟨.error .reauthRequired, none, 1, 1⟩)
  ∧ (makeAuthenticatedRequest (α := ℕ) 1000000 (some ⟨"tok", none, some 999999999⟩)
        (.ok ⟨"x", none, 0⟩) (.ok ⟨"newtok", none, 3600⟩) (.error (some 401)) (.ok 7) =
      ⟨.error (.http (some 401)), none, 0, 1⟩)
  ∧ (makeAuthenticatedRequest (α := ℕ) 1000000 (some ⟨"tok", some "rt", some 999999999⟩)
        (.ok ⟨"x", none, 0⟩) (.ok ⟨"newtok", none, 3600⟩) (.error (some 500)) (.ok 7) =
      ⟨.error (.http (some 500)), none, 0, 1⟩)
  ∧ (makeAuthenticatedRequest (α := ℕ) 1000000 (some ⟨"tok", some "rt", some 999999999⟩)
        (.ok ⟨"x", none, 0⟩) (.ok ⟨"newtok", none, 3600⟩) (.error (some 404)) (.ok 7) =
      ⟨.error .notFound, none, 0, 1⟩) := by
  refine ⟨(authenticated_request_retry_once 1000000 999999999
             ⟨"tok", some "rt", some 999999999⟩ 7 (.ok 7) "rt" ⟨"newtok", none, 3600⟩
             none (.ok ⟨"x", none, 0⟩) (by decide) rfl (by decide) (by decide)).1 rfl,
          (authenticated_request_retry_once 1000000 999999999
             ⟨"tok", some "rt", some 999999999⟩ 7 (.ok 7) "rt" ⟨"newtok", none, 3600⟩
             none (.ok ⟨"x", none, 0⟩) (by decide) rfl (by decide) (by decide)).2.1 rfl (some 500),
          (authenticated_request_retry_once 1000000 999999999
             ⟨"tok", some "rt", some 999999999⟩ 7 (.ok 7) "rt" ⟨"newtok", none, 3600⟩
             none (.ok ⟨"x", none, 0⟩) (by decide) rfl (by decide) (by decide)).2.2.1 rfl,
          (authenticated_request_retry_once 1000000 999999999
             ⟨"tok", none, some 999999999⟩ 7 (.ok 7) "rt" ⟨"newtok", none, 3600⟩
             none (.ok ⟨"x", none, 0⟩) (by decide) rfl (by decide) (by decide)).2.2.2.1 rfl,
          (authenticated_request_retry_once 1000000 999999999
             ⟨"tok", some "rt", some 999999999⟩ 7 (.ok 7) "rt" ⟨"newtok", none, 3600⟩
             (some 500) (.ok ⟨"x", none, 0⟩) (by decide) rfl (by decide) (by decide)).2.2.2.2.1
            (by decide) (by decide),
          (authenticated_request_retry_once 1000000 999999999
             ⟨"tok", some "rt", some 999999999⟩ 7 (.ok 7) "rt" ⟨"newtok", none, 3600⟩
             none (.ok ⟨"x", none, 0⟩) (by decide) rfl (by decide) (by decide)).2.2.2.2.2⟩

/-- Helper: a position swap preserves list length. -/
theorem length_listSwap {α : Type} (l : List α) (i j : ℕ) :
    (listSwap l i j).length = l.length := by
  unfold listSwap
  cases l.get? i <;> cases l.get? j <;> simp

/-- Helper: the Fisher–Yates loop preserves length. -/
theorem length_shuffleFrom {α : Type} (rand : ℕ → ℕ) (l : List α) (n : ℕ) :
    (shuffleFrom rand l n).length = l.length := by
  induction n generalizing l with
  | zero => rfl
  | succ i ih => rw [shuffleFrom, ih, length_listSwap]

/-- Helper: `shuffle` preserves length. -/
theorem length_shuffle {α : Type} (rand : ℕ → ℕ) (l : List α) :
    (shuffle rand l).length = l.length := by
  unfold shuffle
  cases h : l.length with
  | zero => exact h
  | succ n => rw [length_shuffleFrom]; exact h

/-- Helper: exhausting the candidate list on empty results yields the
no-results error after one call per candidate. -/
theorem fetchLoop_all_empty (sf : String → Except (Option ℕ) (List RawTrack))
    (rand : ℕ → ℕ) (isAi : String → Bool) (l : List String)
    (h : ∀ q ∈ l, sf q = .ok []) :
    fetchLoop sf rand isAi l = (.error .noResults, l.length) := by
  induction l with
  | nil => rfl
  | cons q rest ih =>
      have hq := h q (List.mem_cons_self q rest)
      rw [fetchLoop, hq]
      simp [ih fun p hp => h p (List.mem_cons_of_mem q hp)]

/-- C6: an unauthorized search response makes the resolution pipeline
abort immediately with the token-expired error, with no further
candidates attempted (in particular, a 401 on the first candidate means
exactly one search call in total); any other call failure continues to
the next candidate. -/
theorem resolution_aborts_on_unauthorized :
    (∀ (sf : String → Except (Option ℕ) (List RawTrack)) (rand : ℕ → ℕ)
       (isAi : String → Bool) (q : String) (rest : List String),
       sf q = .error (some 401) →
       fetchLoop sf rand isAi (q :: rest) = (.error .tokenExpired, 1))
  ∧ (∀ (sf : String → Except (Option ℕ) (List RawTrack)) (rand : ℕ → ℕ)
       (mood : MoodInput) (useAI : Bool) (q : String) (rest : List String),
       searchAttempts mood useAI = q :: rest →
       sf q = .error (some 401) →
       fetchLiveTracks sf rand mood useAI = (.error .tokenExpired, 1))
  ∧ (∀ (sf : String → Except (Option ℕ) (List RawTrack)) (rand : ℕ → ℕ)
       (isAi : String → Bool) (q : String) (rest : List String) (status : Option ℕ),
       sf q = .error status → status ≠ some 401 →
       fetchLoop sf rand isAi (q :: rest) =
         ((fetchLoop sf rand isAi rest).1, (fetchLoop sf rand isAi rest).2 + 1)) := by
  refine ⟨?_, ?_, ?_⟩
  · intro sf rand isAi q rest hq
    rw [fetchLoop, hq]
    simp
  · intro sf rand mood useAI q rest hatt hq
    unfold fetchLiveTracks
    rw [hatt, fetchLoop, hq]
    simp
  · intro sf rand isAi q rest status hq hst
    rw [fetchLoop, hq]
    simp [hst]

/-- C6 witness: the abort theorem where every search call reports 401 —
one call total on the flow candidate list — and the continue clause on a
429 rate-limit failure. -/
theorem resolution_aborts_on_unauthorized_witness :
    (searchAttempts ⟨"flow", none, []⟩ true =
      "\"deep focus\"" :: ["chill instrumental", "ambient focus", "flow"])
  ∧ fetchLiveTracks (fun _ => .error (some 401)) (fun _ => 0) ⟨"flow", none, []⟩ true =
      (.error .tokenExpired, 1)
  ∧ fetchLoop (fun _ => .error (some 401)) (fun _ => 0) (fun _ => false) ("a" :: ["b"]) =
      (.error .tokenExpired, 1)
  ∧ fetchLoop (fun _ => .error (some 429)) (fun _ => 0) (fun _ => false) ("a" :: ["b"]) =
      ((fetchLoop (fun _ => .error (some 429)) (fun _ => 0) (fun _ => false) ["b"]).1,
       (fetchLoop (fun _ => .error (some 429)) (fun _ => 0) (fun _ => false) ["b"]).2 + 1) := by
  obtain ⟨habort, hlive, hcont⟩ := resolution_aborts_on_unauthorized
  exact ⟨rfl,
         hlive (fun _ => .error (some 401)) (fun _ => 0) ⟨"flow", none, []⟩ true
           "\"deep focus\"" ["chill instrumental", "ambient focus", "flow"] rfl rfl,
         habort (fun _ => .error (some 401)) (fun _ => 0) (fun _ => false) "a" ["b"] rfl,
         hcont (fun _ => .error (some 429)) (fun _ => 0) (fun _ => false) "a" ["b"]
           (some 429) rfl (by decide)⟩

/-- C7: the pipeline tries its candidates sequentially and stops at the
first non-empty result: with 4 ordered candidates of which the first 3
return empty results and the 4th returns 2 raw items, exactly 4 search
calls are made and the result is at most 2 tracks tagged with the
generic search source; if every candidate returns empty, it fails with
the no-results error. -/
theorem resolution_stops_at_first_nonempty
    (sf : String → Except (Option ℕ) (List RawTrack)) (rand : ℕ → ℕ)
    (mood : MoodInput) (q1 q2 q3 q4 : String) (t1 t2 : RawTrack)
    (hatt : searchAttempts mood false = [q1, q2, q3, q4])
    (hsq : mood.searchQuery = none) (hsg : mood.seedGenres = [])
    (h1 : sf q1 = .ok []) (h2 : sf q2 = .ok []) (h3 : sf q3 = .ok [])
    (h4 : sf q4 = .ok [t1, t2]) :
    (∃ res, fetchLiveTracks sf rand mood false = (.ok res, 4) ∧
       res.tracks.length ≤ 2 ∧ res.source = "spotify-search")
  ∧ (∀ sf2 : String → Except (Option ℕ) (List RawTrack),
       (∀ q, sf2 q = .ok []) →
       (fetchLiveTracks sf2 rand mood false).1 = .error .noResults) := by
  constructor
  · refine ⟨{ source := if isAiSource mood q4 then "openai-search" else "spotify-search"
              query := q4
              tracks := ((shuffle rand [t1, t2]).take 20).map mapTrack }, ?_, ?_, ?_⟩
    · unfold fetchLiveTracks
      rw [hatt, fetchLoop, h1]
      simp only [List.length_nil]
      rw [fetchLoop, h2]
      simp only [List.length_nil]
      rw [fetchLoop, h3]
      simp only [List.length_nil]
      rw [fetchLoop, h4]
      simp
    · simp only [List.length_map, List.length_take, length_shuffle]
      simp
    · have hg : genreQuery mood = none := by simp [genreQuery, hsg]
      simp [isAiSource, hsq, hg]
  · intro sf2 hsf2
    unfold fetchLiveTracks
    rw [fetchLoop_all_empty sf2 rand (isAiSource mood) _ (fun q _ => hsf2 q)]

/-- C7 witness: the flow candidate list (3 presets plus the label), with
the live search returning tracks only for the final `flow` query. -/
theorem resolution_stops_at_first_nonempty_witness :
    (searchAttempts ⟨"flow", none, []⟩ false =
      ["\"deep focus\"", "chill instrumental", "ambient focus", "flow"])
  ∧ (∃ res,
      fetchLiveTracks
        (fun q => if q = "flow" then
            .ok [{ id := "a", name := "A", artists := ["x"],
                   previewUrl := none, uri := none, externalUrl := none, albumArt := none },
                 { id := "b", name := "B", artists := ["y"],
                   previewUrl := none, uri := none, externalUrl := none, albumArt := none }]
          else .ok [])
        (fun _ => 0) ⟨"flow", none, []⟩ false = (.ok res, 4) ∧
      res.tracks.length ≤ 2 ∧ res.source = "spotify-search")
  ∧ (fetchLiveTracks (fun _ => .ok []) (fun _ => 0) ⟨"flow", none, []⟩ false).1 =
      .error .noResults := by
  obtain ⟨hfound, hexhaust⟩ := resolution_stops_at_first_nonempty
    (fun q => if q = "flow" then
        .ok [{ id := "a", name := "A", artists := ["x"],
               previewUrl := none, uri := none, externalUrl := none, albumArt := none },
             { id := "b", name := "B", artists := ["y"],
               previewUrl := none, uri := none, externalUrl := none, albumArt := none }]
      else .ok [])
    (fun _ => 0) ⟨"flow", none, []⟩
    "\"deep focus\"" "chill instrumental" "ambient focus" "flow"
    { id := "a", name := "A", artists := ["x"],
      previewUrl := none, uri := none, externalUrl := none, albumArt := none }
    { id := "b", name := "B", artists := ["y"],
      previewUrl := none, uri := none, externalUrl := none, albumArt := none }
    rfl rfl rfl rfl rfl rfl rfl
  exact ⟨rfl, hfound, hexhaust (fun _ => .ok []) (fun _ => rfl)⟩

/-- C8: without any access token the route's track selection makes zero
external search calls and returns the mood's static fallback list; an
unknown mood label falls back to reset's list. -/
theorem no_token_static_fallback
    (searchFn : String → Except (Option ℕ) (List RawTrack)) (rand : ℕ → ℕ)
    (mood : MoodInput) (useAI : Bool) :
    routeTrackSelection none searchFn rand mood useAI =
      ((getFallbackTracks mood.label, "fallback"), 0)
  ∧ (∀ label : String,
      label ≠ "flow" → label ≠ "amped" → label ≠ "recovery" → label ≠ "reset" →
      getFallbackTracks label = getFallbackTracks "reset") := by
  constructor
  · rfl
  · intro label hf ha hr hre
    simp [getFallbackTracks, FALLBACK_TRACKS, hf, ha, hr, hre]

/-- C8 witness: the fallback theorem at the amped mood (with a search
function that would find tracks, showing it is never consulted) and the
unknown label `"unknown"`. -/
theorem no_token_static_fallback_witness :
    routeTrackSelection none
      (fun _ => .ok [{ id := "a", name := "A", artists := ["x"],
                       previewUrl := none, uri := none, externalUrl := none, albumArt := none }])
      (fun _ => 0) ⟨"amped", none, []⟩ true =
      ((getFallbackTracks "amped", "fallback"), 0)
  ∧ getFallbackTracks "unknown" = getFallbackTracks "reset" := by
  obtain ⟨hmain, hdefault⟩ := no_token_static_fallback
    (fun _ => .ok [{ id := "a", name := "A", artists := ["x"],
                     previewUrl := none, uri := none, externalUrl := none, albumArt := none }])
    (fun _ => 0) ⟨"amped", none, []⟩ true
  exact ⟨hmain, hdefault "unknown" (by decide) (by decide) (by decide) (by decide)⟩

/-- C9 (code evaluated at the failing input): with userId `"ab"` and the
random draws 0 (base-36 `"0"`, so `generateState()` yields the empty
string) followed by 0.5 (base-36 `"0.i"`, so the replacement draw yields
`"i"`), `/whoop/login` builds the state `"_ab"`, which is shorter than 8
characters, so `getAuthorizationUrl` replaces it with the fresh draw
`"i"`: the embedded state has length 1 < 8 and no longer contains the
userId binding suffix `"_ab"`. -/
theorem login_state_shorter_than_8 :
    generateState "" = ""
  ∧ (whoopLogin "cid" "https://cb" "ab" "" "i").2 = "i"
  ∧ ((whoopLogin "cid" "https://cb" "ab" "" "i").2).length < 8
  ∧ (∀ s : String, (whoopLogin "cid" "https://cb" "ab" "" "i").2 ≠ s ++ "_" ++ "ab".take 7)
  ∧ (whoopLogin "cid" "https://cb" "ab" "" "i").1 =
      "https://api.prod.whoop.com/oauth/oauth2/auth?response_type=code&client_id=" ++
        "cid" ++ "&redirect_uri=" ++ "https://cb" ++ "&scope=" ++ WHOOP_SCOPES ++
        "&state=" ++ "i" := by
  refine ⟨rfl, rfl, by decide, ?_, rfl⟩
  intro s h
  rw [show (whoopLogin "cid" "https://cb" "ab" "" "i").2 = "i" from rfl] at h
  have hlen := congrArg String.length h
  rw [String.length_append, String.length_append] at hlen
  have h1 : ("i" : String).length = 1 := rfl
  have h2 : ("_" : String).length = 1 := rfl
  have h3 : ("ab".take 7).length = 2 := rfl
  rw [h1, h2, h3] at hlen
  omega

end PlaylistGen
